import Mathlib

/-!
Verification of the BigQuery agent-analytics plugin
(src/google/adk/plugins/bigquery_agent_analytics_plugin.py).

The development shallowly embeds the schema-resolution layer
(_bq_to_arrow_scalars, _bq_to_arrow_range_data_type,
_bq_to_arrow_struct_data_type, _bq_to_arrow_data_type, _bq_to_arrow_field,
to_arrow_schema), the event filter (_log), the shutdown client handling
(shutdown / _ensure_init), the default content formatters (_format_content,
_format_args) and the event-type classifier (_get_event_type).

Python exceptions are modelled with Except String: a .error value is a
raised exception, a .ok value is a normal return.  Python None is modelled
with Option.  Machine details (the actual pyarrow wire encoding, network
I O, asyncio scheduling) are outside the embedded fragment.
-/

/-- Models Python str.upper on the ASCII strings used for BigQuery type
names (maps every character through Char.toUpper, as CPython does for
ASCII input). -/
def pyUpper (s : String) : String := String.mk (s.data.map Char.toUpper)

/-- Models the Python expression `field.field_type.upper() if
field.field_type else ""`: a falsy (empty) type string stays empty. -/
def pyUpperOrEmpty (s : String) : String := if s.isEmpty then "" else pyUpper s

/-- Models Python slicing s[:n] on str: the first n characters. -/
def pySlice (s : String) (n : Nat) : String := String.mk (s.data.take n)

/-- Arrow data types produced by the type mapper.  Scalars mirror the
pyarrow constructors used in _BQ_TO_ARROW_SCALARS; struct fields are
(name, nullable, metadata, type) tuples mirroring the pa.field values
collected by _bq_to_arrow_struct_data_type (the two range sub-fields are
built from plain (name, type) pairs, which pyarrow turns into nullable
fields without metadata). -/
inductive ArrowType where
  | bool
  | binary
  | date32
  | float64
  | int64
  | string
  | time64us
  | timestamp (unit : String) (tz : Option String)
  | decimal128 (precision scale : Nat)
  | decimal256 (precision scale : Nat)
  | list (elem : ArrowType)
  | struct (fields : List (String × Bool × Option (List (String × String)) × ArrowType))

/-- A resolved top-level field of the wire schema: models the pa.field
value built by _bq_to_arrow_field. -/
structure ArrowField where
  name : String
  dtype : ArrowType
  nullable : Bool
  metadata : Option (List (String × String))

/-- Entry of an Arrow struct type, as stored in ArrowType.struct. -/
def structEntryOfField (af : ArrowField) :
    String × Bool × Option (List (String × String)) × ArrowType :=
  (af.name, af.nullable, af.metadata, af.dtype)

/-- Models _BQ_TO_ARROW_SCALARS.get: the scalar type table.  The Python
dict stores constructors; looking one up and calling it yields exactly the
type returned here. -/
def bq_to_arrow_scalars (bq_scalar : String) : Option ArrowType :=
  if bq_scalar = "BOOL" then some .bool
  else if bq_scalar = "BOOLEAN" then some .bool
  else if bq_scalar = "BYTES" then some .binary
  else if bq_scalar = "DATE" then some .date32
  else if bq_scalar = "DATETIME" then some (.timestamp "us" none)
  else if bq_scalar = "FLOAT" then some .float64
  else if bq_scalar = "FLOAT64" then some .float64
  else if bq_scalar = "GEOGRAPHY" then some .string
  else if bq_scalar = "INT64" then some .int64
  else if bq_scalar = "INTEGER" then some .int64
  else if bq_scalar = "JSON" then some .string
  else if bq_scalar = "NUMERIC" then some (.decimal128 38 9)
  else if bq_scalar = "BIGNUMERIC" then some (.decimal256 76 38)
  else if bq_scalar = "STRING" then some .string
  else if bq_scalar = "TIME" then some .time64us
  else if bq_scalar = "TIMESTAMP" then some (.timestamp "us" (some "UTC"))
  else none

/-- Models _BQ_FIELD_TYPE_TO_ARROW_FIELD_METADATA.get (byte strings are
rendered as plain strings). -/
def fieldMetadata (field_type_upper : String) :
    Option (List (String × String)) :=
  if field_type_upper = "GEOGRAPHY" then
    some [("ARROW:extension:name", "google:sqlType:geography"),
          ("ARROW:extension:metadata", "\x7b\"encoding\": \"WKT\"\x7d")]
  else if field_type_upper = "DATETIME" then
    some [("ARROW:extension:name", "google:sqlType:datetime")]
  else if field_type_upper = "JSON" then
    some [("ARROW:extension:name", "google:sqlType:json")]
  else none

/-- Models google.cloud.bigquery SchemaField: name, field_type, mode
(defaulting to NULLABLE at the construction sites we embed), nested
fields, and the element type string of range_element_type (none when the
attribute is None). -/
inductive SchemaField where
  | mk (name field_type mode : String) (fields : List SchemaField)
      (range_element_type : Option String)

/-- Accessor for the field name. -/
def SchemaField.name : SchemaField → String
  | .mk n _ _ _ _ => n

/-- Accessor for the field type string. -/
def SchemaField.field_type : SchemaField → String
  | .mk _ ft _ _ _ => ft

/-- Accessor for the field mode string. -/
def SchemaField.mode : SchemaField → String
  | .mk _ _ m _ _ => m

/-- Accessor for the nested fields. -/
def SchemaField.fields : SchemaField → List SchemaField
  | .mk _ _ _ fs _ => fs

/-- Accessor for the range element type. -/
def SchemaField.range_element_type : SchemaField → Option String
  | .mk _ _ _ _ ret => ret

/-- Models bigquery.SchemaField(name, field_type) with its default
arguments: mode NULLABLE, no sub-fields, no range element type.  This is
how the plugin constructor builds all eight schema fields. -/
def schemaFieldDefault (name field_type : String) : SchemaField :=
  .mk name field_type "NULLABLE" [] none

/-- Models _bq_to_arrow_range_data_type.  The argument is
field.range_element_type.  When it is None the source raises
ValueError("Range element type cannot be None"); when the element type is
not in the scalar table, _bq_to_arrow_scalars returns None and calling
None() raises TypeError.  Both raises are .error values. -/
def bq_to_arrow_range_data_type (felem : Option String) :
    Except String ArrowType :=
  match felem with
  | none => .error "ValueError: Range element type cannot be None"
  | some element_type =>
    match bq_to_arrow_scalars (pyUpper element_type) with
    | none => .error "TypeError: NoneType object is not callable"
    | some t =>
      .ok (.struct [("start", true, none, t), ("end", true, none, t)])

/-- Models the pa.field value built inside _bq_to_arrow_field once the
data type resolved: nullable iff mode is not REPEATED, metadata from the
uppercased field type. -/
def mkArrowField (f : SchemaField) (t : ArrowType) : ArrowField :=
  { name := f.name
    dtype := t
    nullable := f.mode ≠ "REPEATED"
    metadata := fieldMetadata (pyUpperOrEmpty f.field_type) }

/-- Python truthiness of a pyarrow DataType.  pyarrow StructType
implements len as its number of fields, so pa.struct of an empty list is
falsy; none of the other types built here (scalars, timestamps, decimals,
list types) defines len or bool, so they are truthy objects.  The source
relies on this at `if arrow_type:` in _bq_to_arrow_field and at
`pa.list_(inner) if inner else None` in _bq_to_arrow_data_type. -/
def arrowTruthy : ArrowType → Bool
  | .struct fields => !fields.isEmpty
  | _ => true

mutual

/-- Models _bq_to_arrow_data_type.  The REPEATED branch of the source
rebuilds the field with mode NULLABLE and recurses; since the recursive
call only reads name, field_type, fields and range_element_type (all
copied unchanged), it is embedded as the non-repeated core computed on the
same data.  The result is then wrapped by `pa.list_(inner) if inner else
None`: inner is tested for Python truthiness, so a falsy inner type (an
empty struct) yields None, not a list type.  The core dispatches on the
uppercased field type: STRUCT/RECORD recurses over the sub-fields, RANGE
uses _bq_to_arrow_range_data_type, anything else is a scalar-table lookup
that degrades to None (no exception) when unmapped. -/
def bq_to_arrow_data_type : SchemaField → Except String (Option ArrowType)
  | .mk _n ft m fs ret =>
    let ftu := pyUpperOrEmpty ft
    let core : Except String (Option ArrowType) :=
      if ftu = "RECORD" ∨ ftu = "STRUCT" then
        match bq_to_arrow_subfields fs with
        | .error e => .error e
        | .ok none => .ok none
        | .ok (some entries) => .ok (some (.struct entries))
      else if ftu = "RANGE" then
        match bq_to_arrow_range_data_type ret with
        | .error e => .error e
        | .ok t => .ok (some t)
      else
        match bq_to_arrow_scalars ftu with
        | some t => .ok (some t)
        | none => .ok none
    if m = "REPEATED" then
      match core with
      | .error e => .error e
      | .ok none => .ok none
      | .ok (some t) => if arrowTruthy t then .ok (some (.list t)) else .ok none
    else core

/-- Models the loop of _bq_to_arrow_struct_data_type: converts each
sub-field through _bq_to_arrow_field in declared order (inlined here: the
sub-field is dropped when its data type is None or resolves to a falsy
type, exactly the `if arrow_type:` test of _bq_to_arrow_field), aborting
with None (whole struct dropped) as soon as one sub-field fails, and
propagating any raised exception. -/
def bq_to_arrow_subfields : List SchemaField →
    Except String (Option (List (String × Bool × Option (List (String × String)) × ArrowType)))
  | [] => .ok (some [])
  | g :: gs =>
    match bq_to_arrow_data_type g with
    | .error e => .error e
    | .ok none => .ok none
    | .ok (some t) =>
      if arrowTruthy t then
        match bq_to_arrow_subfields gs with
        | .error e => .error e
        | .ok none => .ok none
        | .ok (some l) => .ok (some (structEntryOfField (mkArrowField g t) :: l))
      else .ok none

end

/-- Models _bq_to_arrow_struct_data_type: pa.struct over the converted
sub-fields, or None when a sub-field failed. -/
def bq_to_arrow_struct_data_type (f : SchemaField) :
    Except String (Option ArrowType) :=
  match bq_to_arrow_subfields f.fields with
  | .error e => .error e
  | .ok none => .ok none
  | .ok (some entries) => .ok (some (.struct entries))

/-- Models _bq_to_arrow_field: resolve the data type; the source then
tests `if arrow_type:` with Python truthiness, so both None and a falsy
resolved type (an empty struct) drop the field, and only a truthy type
yields the pa.field (nullable iff mode is not REPEATED, with extension
metadata). -/
def bq_to_arrow_field (f : SchemaField) : Except String (Option ArrowField) :=
  match bq_to_arrow_data_type f with
  | .error e => .error e
  | .ok none => .ok none
  | .ok (some t) =>
    if arrowTruthy t then .ok (some (mkArrowField f t)) else .ok none

/-- Models to_arrow_schema: converts every top-level field in order,
returning None for the whole schema as soon as any field fails, and
propagating raised exceptions. -/
def to_arrow_schema : List SchemaField → Except String (Option (List ArrowField))
  | [] => .ok (some [])
  | f :: fs =>
    match bq_to_arrow_field f with
    | .error e => .error e
    | .ok none => .ok none
    | .ok (some af) =>
      match to_arrow_schema fs with
      | .error e => .error e
      | .ok none => .ok none
      | .ok (some l) => .ok (some (af :: l))

/-- A RANGE-typed node with a present and mapped element kind (the
condition under which _bq_to_arrow_range_data_type does not raise). -/
def rangeElementOk : Option String → Bool
  | some element_type => (bq_to_arrow_scalars (pyUpper element_type)).isSome
  | none => false

mutual

/-- Input trees whose RANGE nodes all carry a present, mapped element
kind: exactly the trees on which resolution cannot raise. -/
def rangeOk : SchemaField → Bool
  | .mk _ ft _ fs ret =>
    (if pyUpperOrEmpty ft = "RANGE" then rangeElementOk ret else true)
      && rangeOkList fs

/-- rangeOk for every member of a list of fields. -/
def rangeOkList : List SchemaField → Bool
  | [] => true
  | g :: gs => rangeOk g && rangeOkList gs

end

/-- The fixed eight-field deployment schema built in the plugin
constructor (self._schema): every SchemaField is constructed with the
default mode NULLABLE. -/
def plugin_schema : List SchemaField :=
  [schemaFieldDefault "timestamp" "TIMESTAMP",
   schemaFieldDefault "event_type" "STRING",
   schemaFieldDefault "agent" "STRING",
   schemaFieldDefault "session_id" "STRING",
   schemaFieldDefault "invocation_id" "STRING",
   schemaFieldDefault "user_id" "STRING",
   schemaFieldDefault "content" "STRING",
   schemaFieldDefault "error_message" "STRING"]

/-- The wire schema that to_arrow_schema resolves from plugin_schema. -/
def plugin_resolved : List ArrowField :=
  [⟨"timestamp", .timestamp "us" (some "UTC"), true, none⟩,
   ⟨"event_type", .string, true, none⟩,
   ⟨"agent", .string, true, none⟩,
   ⟨"session_id", .string, true, none⟩,
   ⟨"invocation_id", .string, true, none⟩,
   ⟨"user_id", .string, true, none⟩,
   ⟨"content", .string, true, none⟩,
   ⟨"error_message", .string, true, none⟩]

/-- Models BigQueryLoggerConfig (the content_formatter member is not read
by any embedded function and is omitted). -/
structure BigQueryLoggerConfig where
  enabled : Bool
  event_allowlist : Option (List String)
  event_denylist : Option (List String)

/-- Python truthiness of an optional list: None and the empty list are
falsy, a non-empty list is truthy. -/
def pyTruthyList : Option (List String) → Bool
  | some l => !l.isEmpty
  | none => false

/-- Models the Python membership test `event_type in lst` where event_type
may be None: None is never a member of a list of strings. -/
def optMemList (et : Option String) (l : List String) : Bool :=
  match et with
  | some s => decide (s ∈ l)
  | none => false

/-- The event data dict passed to _log, field by field.  A none entry
models a key that is missing from the dict (or mapped to None, which the
row template makes indistinguishable). -/
structure LogData where
  timestamp : Option Nat
  event_type : Option String
  agent : Option String
  session_id : Option String
  invocation_id : Option String
  user_id : Option String
  content : Option String
  error_message : Option String

/-- A LogData with every key absent. -/
def emptyLogData : LogData := ⟨none, none, none, none, none, none, none, none⟩

/-- The row handed to the background write task: the template of _log
(capture-time timestamp, all other fields None) updated with the supplied
data.  Time is abstracted to a Nat capture instant. -/
structure LogRow where
  timestamp : Nat
  event_type : Option String
  agent : Option String
  session_id : Option String
  invocation_id : Option String
  user_id : Option String
  content : Option String
  error_message : Option String

/-- Models `row = template; row.update(data)` in _log. -/
def mergeRow (now : Nat) (d : LogData) : LogRow :=
  { timestamp := d.timestamp.getD now
    event_type := d.event_type
    agent := d.agent
    session_id := d.session_id
    invocation_id := d.invocation_id
    user_id := d.user_id
    content := d.content
    error_message := d.error_message }

/-- Models _log up to the point where the background task is created:
returns some row iff asyncio.create_task(self._perform_write(row)) is
executed (the filters passed), none iff _log returned early.  The source
checks, in order: enabled, the deny-list (truthy list containing the event
type), the allow-list (truthy list not containing the event type). -/
def log_sched (cfg : BigQueryLoggerConfig) (now : Nat) (d : LogData) :
    Option LogRow :=
  if !cfg.enabled then none
  else if pyTruthyList cfg.event_denylist
      && optMemList d.event_type (cfg.event_denylist.getD []) then none
  else if pyTruthyList cfg.event_allowlist
      && !optMemList d.event_type (cfg.event_allowlist.getD []) then none
  else some (mergeRow now d)

/-- Python truthiness of the cached pa.Schema handle: None is falsy and a
schema with zero fields has len 0, hence is falsy too. -/
def schemaTruthy : Option (List ArrowField) → Bool
  | some l => !l.isEmpty
  | none => false

/-- The state _perform_write reads before its guard: the result of
_ensure_init, whether self._write_client is set, and the cached
self._arrow_schema. -/
structure WriteState where
  init_ok : Bool
  write_client : Bool
  arrow_schema : Option (List ArrowField)

/-- Models the guard of _perform_write: the row is encoded and handed to
the transport iff _ensure_init returned True, the write client is set and
the cached arrow schema is truthy; otherwise the task returns before any
encoding. -/
def perform_write_transmits (st : WriteState) : Bool :=
  st.init_ok && st.write_client && schemaTruthy st.arrow_schema

/-- Models the client-closing phase of shutdown (phase 2).  The write
client is modelled as Option Bool: some tr is a non-null
self._write_client whose transport truthiness is tr; none is a null
client.  The control-plane client is a presence flag.  The close calls can
fail, but every exception is caught inside the method, so the failure
flags do not influence the resulting state; they are parameters only to
express that.  Mirrors the source exactly: the write client is set to None
inside the `if self._write_client and self._write_client.transport` block,
and the bq client is set to None inside the `if self._bq_client` block. -/
def shutdown_clients (write_client : Option Bool) (bq_client : Bool)
    (write_close_fails bq_close_fails : Bool) : Option Bool × Bool :=
  let wc : Option Bool :=
    match write_client with
    | some transport =>
      if transport then
        -- close attempted; whether it failed or not, the except clause
        -- swallows the error and the handle is nulled
        let _ := write_close_fails
        none
      else some transport
    | none => none
  let bqc : Bool :=
    if bq_client then
      let _ := bq_close_fails
      false
    else false
  (wc, bqc)

/-- Models the first line of _ensure_init: `if self._write_client: return
True`.  True means the call returns immediately with the existing handle
instead of running the initialization state machine. -/
def ensure_init_fast_path (write_client : Option Bool) : Bool :=
  write_client.isSome

/-- Models a google.genai types.Part as read by the formatters and the
classifier: an optional text, and the names of an optional function_call
and function_response.  The function_call and function_response objects
are truthy iff present. -/
structure GenaiPart where
  text : Option String
  function_call : Option String
  function_response : Option String

/-- A part that carries only text. -/
def textPart (t : String) : GenaiPart := ⟨some t, none, none⟩

/-- Python truthiness of an optional string: None and the empty string
are falsy. -/
def pyTruthyStr : Option String → Bool
  | some s => !s.isEmpty
  | none => false

/-- Models Python sep.join(parts). -/
def pyJoin (sep : String) : List String → String
  | [] => ""
  | [x] => x
  | x :: y :: xs => x ++ sep ++ pyJoin sep (y :: xs)

/-- Models the body of the loop in _format_content for one part: the text
branch truncates to max_len characters and appends an ellipsis inside the
quotes (plus a trailing space) exactly when the text is strictly longer
than max_len. -/
def formatPart (max_len : Nat) (p : GenaiPart) : String :=
  if pyTruthyStr p.text then
    let t := p.text.getD ""
    if max_len < t.length then
      "text: \x27" ++ pySlice t max_len ++ "...\x27 "
    else
      "text: \x27" ++ t ++ "\x27"
  else if p.function_call.isSome then "call: " ++ p.function_call.getD ""
  else if p.function_response.isSome then "resp: " ++ p.function_response.getD ""
  else "other"

/-- Models _format_content.  The content argument is none when content is
None or content.parts is None; the empty list models empty parts.  The
source default for max_len is 500. -/
def format_content (max_len : Nat) (c : Option (List GenaiPart)) : String :=
  match c with
  | none => "None"
  | some parts =>
    if parts.isEmpty then "None"
    else pyJoin " | " (parts.map (formatPart max_len))

/-- Models _format_args.  args_empty models `not args` (an empty or falsy
dict); s models the serialized form json.dumps(args), or str(args) when
json.dumps raises TypeError.  The source default for max_len is 1000. -/
def format_args (max_len : Nat) (args_empty : Bool) (s : String) : String :=
  if args_empty then "\x7b\x7d"
  else if max_len < s.length then pySlice s max_len ++ "..."
  else s

/-- Python truthiness of `event.content and event.content.parts`: none
models content None or parts None; a non-empty list is truthy. -/
def pyTruthyParts : Option (List GenaiPart) → Bool
  | some l => !l.isEmpty
  | none => false

/-- The observable shape of an Event as read by _get_event_type: the
author, the lists returned by get_function_calls() and
get_function_responses() (modelled by the names of the calls), the
content parts and the error message. -/
structure EventShape where
  author : String
  function_calls : List String
  function_responses : List String
  content_parts : Option (List GenaiPart)
  error_message : Option String

/-- Models _get_event_type: the fixed cascade of truthiness tests. -/
def get_event_type (e : EventShape) : String :=
  if e.author = "user" then "USER_INPUT"
  else if !e.function_calls.isEmpty then "TOOL_CALL"
  else if !e.function_responses.isEmpty then "TOOL_RESULT"
  else if pyTruthyParts e.content_parts then "MODEL_RESPONSE"
  else if pyTruthyStr e.error_message then "ERROR"
  else "SYSTEM"

/-- A RANGE field whose range_element_type is None (absent element kind). -/
def rangeNoneField : SchemaField := .mk "r" "RANGE" "NULLABLE" [] none

/-- A RANGE field whose element kind is not in the scalar table. -/
def rangeBadField : SchemaField := .mk "rb" "RANGE" "NULLABLE" [] (some "FOO")

/-- A field with an unmapped scalar type: resolves to absent (dropped)
without raising. -/
def fooField : SchemaField := .mk "f" "FOO" "NULLABLE" [] none

/-- A STRING field that always resolves. -/
def strField : SchemaField := schemaFieldDefault "s" "STRING"

/-- A struct whose first child raises (absent range element kind) and
whose second child resolves to absent. -/
def structRaisingChild : SchemaField :=
  .mk "st" "RECORD" "NULLABLE" [rangeNoneField, fooField] none

/-- A struct with one resolving child and one child that resolves to
absent, no child raising. -/
def structDroppedChild : SchemaField :=
  .mk "st2" "RECORD" "NULLABLE" [strField, fooField] none

/-- The default BigQueryLoggerConfig: enabled, no allow-list, no
deny-list. -/
def defaultConfig : BigQueryLoggerConfig := ⟨true, none, none⟩

/-- A data dict carrying only event_type TOOL_STARTING. -/
def toolStartingData : LogData :=
  { emptyLogData with event_type := some "TOOL_STARTING" }

/-- An event with non-empty content parts and a non-empty error message,
no function calls or responses, author not user. -/
def eventBothContentAndError : EventShape :=
  ⟨"agent", [], [], some [textPart "x"], some "boom"⟩

/-- Proof-helper restatement of the non-repeated core of
_bq_to_arrow_data_type, definitionally equal to the let-bound core inside
bq_to_arrow_data_type (see data_type_mk below). -/
def dataTypeCore (ft : String) (fs : List SchemaField) (ret : Option String) :
    Except String (Option ArrowType) :=
  let ftu := pyUpperOrEmpty ft
  if ftu = "RECORD" ∨ ftu = "STRUCT" then
    match bq_to_arrow_subfields fs with
    | .error e => .error e
    | .ok none => .ok none
    | .ok (some entries) => .ok (some (.struct entries))
  else if ftu = "RANGE" then
    match bq_to_arrow_range_data_type ret with
    | .error e => .error e
    | .ok t => .ok (some t)
  else
    match bq_to_arrow_scalars ftu with
    | some t => .ok (some t)
    | none => .ok none

/-! ## Helper lemmas -/

/-- The size of a SchemaField is positive. -/
theorem SchemaField.sizeOf_pos (f : SchemaField) : 0 < sizeOf f := by
  cases f; simp

/-- The nested field list is smaller than the field containing it. -/
theorem SchemaField.sizeOf_fields_lt (f : SchemaField) :
    sizeOf f.fields < sizeOf f := by
  cases f; simp [SchemaField.fields]; omega

/-- bq_to_arrow_data_type on a constructor, expressed through
dataTypeCore. -/
theorem data_type_mk (n ft m : String) (fs : List SchemaField)
    (ret : Option String) :
    bq_to_arrow_data_type (.mk n ft m fs ret) =
      if m = "REPEATED" then
        match dataTypeCore ft fs ret with
        | .error e => .error e
        | .ok none => .ok none
        | .ok (some t) =>
          if arrowTruthy t then .ok (some (.list t)) else .ok none
      else dataTypeCore ft fs ret := rfl

/-- A RECORD field with an empty child list resolves to the falsy type
pa.struct of no fields, which the truthiness tests then drop: the data
type itself is the empty struct, the field conversion drops it, the
REPEATED wrapper turns it into None, and a whole schema containing it is
absent. -/
theorem empty_record_field_dropped :
    bq_to_arrow_data_type (.mk "e" "RECORD" "NULLABLE" [] none)
        = .ok (some (.struct [])) ∧
      bq_to_arrow_field (.mk "e" "RECORD" "NULLABLE" [] none) = .ok none ∧
      bq_to_arrow_data_type (.mk "e" "RECORD" "REPEATED" [] none) = .ok none ∧
      to_arrow_schema [.mk "e" "RECORD" "NULLABLE" [] none] = .ok none :=
  ⟨rfl, rfl, rfl, rfl⟩

/-- When the range element kind is present and mapped, the range
conversion does not raise. -/
theorem range_data_type_no_error (ret : Option String)
    (h : rangeElementOk ret = true) :
    ∃ t, bq_to_arrow_range_data_type ret = .ok t := by
  cases ret with
  | none => simp [rangeElementOk] at h
  | some et =>
    simp only [rangeElementOk, Option.isSome_iff_exists] at h
    obtain ⟨t, ht⟩ := h
    refine ⟨.struct [("start", true, none, t), ("end", true, none, t)], ?_⟩
    simp [bq_to_arrow_range_data_type, ht]

/-- Core of the no-raise property: on inputs whose RANGE nodes are all
well-formed, neither the data-type conversion nor the sub-field loop can
return an error, at any size bound. -/
theorem resolve_no_error_aux : ∀ N : Nat,
    (∀ f : SchemaField, sizeOf f ≤ N → rangeOk f = true →
      ∃ r, bq_to_arrow_data_type f = .ok r) ∧
    (∀ l : List SchemaField, sizeOf l ≤ N → rangeOkList l = true →
      ∃ r, bq_to_arrow_subfields l = .ok r) := by
  intro N
  induction N with
  | zero =>
    constructor
    · intro f hf _
      have := SchemaField.sizeOf_pos f
      omega
    · intro l hl _
      cases l <;> simp at hl
  | succ N ih =>
    constructor
    · intro f hf hok
      cases f with
      | mk n ft m fs ret =>
        rw [rangeOk] at hok
        rw [Bool.and_eq_true] at hok
        obtain ⟨hrange, hlist⟩ := hok
        have hfs : sizeOf fs ≤ N := by
          have h1 := SchemaField.sizeOf_fields_lt (SchemaField.mk n ft m fs ret)
          simp only [SchemaField.fields, SchemaField.mk.sizeOf_spec] at h1 hf
          omega
        have hcore : ∃ r, dataTypeCore ft fs ret = .ok r := by
          by_cases hstruct :
              pyUpperOrEmpty ft = "RECORD" ∨ pyUpperOrEmpty ft = "STRUCT"
          · obtain ⟨r, hr⟩ := ih.2 fs hfs hlist
            cases r with
            | none => exact ⟨none, by simp [dataTypeCore, hstruct, hr]⟩
            | some entries =>
              exact ⟨some (.struct entries), by simp [dataTypeCore, hstruct, hr]⟩
          · by_cases hrg : pyUpperOrEmpty ft = "RANGE"
            · rw [if_pos hrg] at hrange
              obtain ⟨t, ht⟩ := range_data_type_no_error ret hrange
              exact ⟨some t, by simp [dataTypeCore, hstruct, hrg, ht]⟩
            · cases hsc : bq_to_arrow_scalars (pyUpperOrEmpty ft) with
              | none => exact ⟨none, by simp [dataTypeCore, hstruct, hrg, hsc]⟩
              | some t => exact ⟨some t, by simp [dataTypeCore, hstruct, hrg, hsc]⟩
        obtain ⟨r, hr⟩ := hcore
        rw [data_type_mk]
        by_cases hm : m = "REPEATED"
        · rw [if_pos hm, hr]
          cases r with
          | none => exact ⟨none, rfl⟩
          | some t =>
            cases ht : arrowTruthy t with
            | false => exact ⟨none, by simp [ht]⟩
            | true => exact ⟨some (.list t), by simp [ht]⟩
        · rw [if_neg hm]
          exact ⟨r, hr⟩
    · intro l hl hok
      cases l with
      | nil => exact ⟨some [], rfl⟩
      | cons g gs =>
        rw [rangeOkList, Bool.and_eq_true] at hok
        obtain ⟨hg, hgs⟩ := hok
        have hszg : sizeOf g ≤ N := by
          have := List.sizeOf_lt_of_mem (List.mem_cons_self g gs)
          omega
        have hszgs : sizeOf gs ≤ N := by
          cases gs with
          | nil => simp at hl ⊢; omega
          | cons a as =>
            simp at hl ⊢
            have := SchemaField.sizeOf_pos g
            omega
        obtain ⟨r, hr⟩ := ih.1 g hszg hg
        cases r with
        | none => exact ⟨none, by simp [bq_to_arrow_subfields, hr]⟩
        | some t =>
          cases ht : arrowTruthy t with
          | false => exact ⟨none, by simp [bq_to_arrow_subfields, hr, ht]⟩
          | true =>
            obtain ⟨r', hr'⟩ := ih.2 gs hszgs hgs
            cases r' with
            | none => exact ⟨none, by simp [bq_to_arrow_subfields, hr, ht, hr']⟩
            | some l' =>
              exact ⟨some (structEntryOfField (mkArrowField g t) :: l'),
                by simp [bq_to_arrow_subfields, hr, ht, hr']⟩

/-- On a range-well-formed field the data-type conversion cannot raise. -/
theorem data_type_no_error (f : SchemaField) (h : rangeOk f = true) :
    ∃ r, bq_to_arrow_data_type f = .ok r :=
  (resolve_no_error_aux (sizeOf f)).1 f le_rfl h

/-- On a range-well-formed field the field conversion cannot raise. -/
theorem field_no_error (f : SchemaField) (h : rangeOk f = true) :
    ∃ r, bq_to_arrow_field f = .ok r := by
  obtain ⟨r, hr⟩ := data_type_no_error f h
  cases r with
  | none => exact ⟨none, by simp [bq_to_arrow_field, hr]⟩
  | some t =>
    cases ht : arrowTruthy t with
    | false => exact ⟨none, by simp [bq_to_arrow_field, hr, ht]⟩
    | true =>
      exact ⟨some (mkArrowField f t), by simp [bq_to_arrow_field, hr, ht]⟩

/-- The field conversion returns None exactly when the data-type
conversion returns None or returns a falsy (empty-struct) type: the two
drop paths of the `if arrow_type:` truthiness test. -/
theorem field_ok_none_iff (g : SchemaField) :
    bq_to_arrow_field g = .ok none ↔
      (bq_to_arrow_data_type g = .ok none ∨
        ∃ t, bq_to_arrow_data_type g = .ok (some t) ∧ arrowTruthy t = false) := by
  cases h : bq_to_arrow_data_type g with
  | error e => simp [bq_to_arrow_field, h]
  | ok r =>
    cases r with
    | none => simp [bq_to_arrow_field, h]
    | some t =>
      cases ht : arrowTruthy t <;> simp [bq_to_arrow_field, h, ht]

/-- The field conversion raises exactly when the data-type conversion
does. -/
theorem field_no_error_iff (g : SchemaField) :
    (∃ r, bq_to_arrow_field g = .ok r) ↔
      (∃ r, bq_to_arrow_data_type g = .ok r) := by
  cases h : bq_to_arrow_data_type g with
  | error e =>
    constructor
    · rintro ⟨r, hr⟩
      simp [bq_to_arrow_field, h] at hr
    · rintro ⟨r, hr⟩
      simp at hr
  | ok r =>
    cases r with
    | none => exact ⟨fun _ => ⟨none, rfl⟩, fun _ => ⟨none, by simp [bq_to_arrow_field, h]⟩⟩
    | some t =>
      refine ⟨fun _ => ⟨some t, rfl⟩, fun _ => ?_⟩
      cases ht : arrowTruthy t with
      | false => exact ⟨none, by simp [bq_to_arrow_field, h, ht]⟩
      | true =>
        exact ⟨some (mkArrowField g t), by simp [bq_to_arrow_field, h, ht]⟩

/-- The sub-field loop of the struct conversion, rephrased through
_bq_to_arrow_field: the source loop converts each sub-field with
_bq_to_arrow_field and collects the resulting pa.field values. -/
theorem bq_to_arrow_subfields_cons (g : SchemaField) (gs : List SchemaField) :
    bq_to_arrow_subfields (g :: gs) =
      match bq_to_arrow_field g with
      | .error e => .error e
      | .ok none => .ok none
      | .ok (some af) =>
        match bq_to_arrow_subfields gs with
        | .error e => .error e
        | .ok none => .ok none
        | .ok (some l) => .ok (some (structEntryOfField af :: l)) := by
  cases h : bq_to_arrow_data_type g with
  | error e => simp [bq_to_arrow_subfields, bq_to_arrow_field, h]
  | ok r =>
    cases r with
    | none => simp [bq_to_arrow_subfields, bq_to_arrow_field, h]
    | some t =>
      cases ht : arrowTruthy t <;>
        simp [bq_to_arrow_subfields, bq_to_arrow_field, h, ht]

/-- When no member of the list raises, the sub-field loop does not raise,
and it returns None exactly when some member converts to None. -/
theorem subfields_none_iff : ∀ l : List SchemaField,
    (∀ g ∈ l, ∃ r, bq_to_arrow_field g = .ok r) →
    ((bq_to_arrow_subfields l = .ok none ↔
        ∃ g ∈ l, bq_to_arrow_field g = .ok none) ∧
      ∃ r, bq_to_arrow_subfields l = .ok r) := by
  intro l
  induction l with
  | nil =>
    intro _
    constructor
    · simp [bq_to_arrow_subfields]
    · exact ⟨some [], rfl⟩
  | cons g gs ih =>
    intro h
    obtain ⟨r, hr⟩ := h g (List.mem_cons_self g gs)
    have hdt : ∃ r, bq_to_arrow_data_type g = .ok r :=
      (field_no_error_iff g).mp ⟨r, hr⟩
    obtain ⟨rt, hrt⟩ := hdt
    cases rt with
    | none =>
      have hfnone : bq_to_arrow_field g = .ok none := by
        simp [bq_to_arrow_field, hrt]
      have hnone : bq_to_arrow_subfields (g :: gs) = .ok none := by
        simp [bq_to_arrow_subfields, hrt]
      constructor
      · rw [hnone]
        simp only [true_iff]
        exact ⟨g, List.mem_cons_self g gs, hfnone⟩
      · exact ⟨none, hnone⟩
    | some t =>
      cases ht : arrowTruthy t with
      | false =>
        have hfnone : bq_to_arrow_field g = .ok none := by
          simp [bq_to_arrow_field, hrt, ht]
        have hnone : bq_to_arrow_subfields (g :: gs) = .ok none := by
          simp [bq_to_arrow_subfields, hrt, ht]
        constructor
        · rw [hnone]
          simp only [true_iff]
          exact ⟨g, List.mem_cons_self g gs, hfnone⟩
        · exact ⟨none, hnone⟩
      | true =>
        have hne : bq_to_arrow_field g = .ok (some (mkArrowField g t)) := by
          simp [bq_to_arrow_field, hrt, ht]
        obtain ⟨hiff, ⟨r', hr'⟩⟩ := ih (fun g' hg' => h g' (List.mem_cons_of_mem g hg'))
        cases r' with
        | none =>
          have hres : bq_to_arrow_subfields (g :: gs) = .ok none := by
            simp [bq_to_arrow_subfields, hrt, ht, hr']
          constructor
          · rw [hres]
            simp only [true_iff]
            obtain ⟨g', hg', hg'none⟩ := hiff.mp hr'
            exact ⟨g', List.mem_cons_of_mem g hg', hg'none⟩
          · exact ⟨none, hres⟩
        | some l' =>
          have hres : bq_to_arrow_subfields (g :: gs)
              = .ok (some (structEntryOfField (mkArrowField g t) :: l')) := by
            simp [bq_to_arrow_subfields, hrt, ht, hr']
          constructor
          · rw [hres]
            constructor
            · intro hcontra
              simp at hcontra
            · rintro ⟨g', hg', hg'none⟩
              rcases List.mem_cons.mp hg' with rfl | hg'tail
              · rw [hne] at hg'none
                simp at hg'none
              · have : bq_to_arrow_subfields gs = .ok none :=
                  hiff.mpr ⟨g', hg'tail, hg'none⟩
                rw [hr'] at this
                simp at this
          · exact ⟨some (structEntryOfField (mkArrowField g t) :: l'), hres⟩

/-- to_arrow_schema never returns a partial schema: a returned schema has
exactly one resolved field per input field. -/
theorem to_arrow_schema_length : ∀ (l : List SchemaField) (s : List ArrowField),
    to_arrow_schema l = .ok (some s) → s.length = l.length := by
  intro l
  induction l with
  | nil =>
    intro s hs
    simp [to_arrow_schema] at hs
    simp [← hs]
  | cons f fs ih =>
    intro s hs
    cases h1 : bq_to_arrow_field f with
    | error e => simp [to_arrow_schema, h1] at hs
    | ok r =>
      cases r with
      | none => simp [to_arrow_schema, h1] at hs
      | some af =>
        cases h2 : to_arrow_schema fs with
        | error e => simp [to_arrow_schema, h1, h2] at hs
        | ok r' =>
          cases r' with
          | none => simp [to_arrow_schema, h1, h2] at hs
          | some l' =>
            simp [to_arrow_schema, h1, h2] at hs
            rw [← hs]
            simp [ih l' h2]

/-! ## Claim theorems -/

/-- C1 counterexample: schema resolution does raise.  A Range field whose
element kind is absent raises ValueError, and a Range field whose element
kind is unmapped raises TypeError, refuting the claim that resolution
never raises, in particular for exactly these inputs. -/
theorem C1_counterexample_resolution_raises :
    to_arrow_schema [rangeNoneField]
        = .error "ValueError: Range element type cannot be None" ∧
      to_arrow_schema [rangeBadField]
        = .error "TypeError: NoneType object is not callable" :=
  ⟨rfl, rfl⟩

/-- C1 (amended): for every list of SchemaField trees none of whose RANGE
nodes has an absent or unmapped element kind, schema resolution never
raises: it returns absent or a wire schema whose field count is at most
the input field count.  (Resolution of a Range field with absent or
unmapped element kind raises, as the counterexample shows.) -/
theorem C1_resolution_total_without_bad_range :
    ∀ l : List SchemaField, (∀ f ∈ l, rangeOk f = true) →
      to_arrow_schema l = .ok none ∨
        ∃ s, to_arrow_schema l = .ok (some s) ∧ s.length ≤ l.length := by
  intro l h
  induction l with
  | nil => exact Or.inr ⟨[], rfl, by simp⟩
  | cons f fs ih =>
    obtain ⟨r, hr⟩ := field_no_error f (h f (List.mem_cons_self f fs))
    cases r with
    | none => exact Or.inl (by simp [to_arrow_schema, hr])
    | some af =>
      rcases ih (fun g hg => h g (List.mem_cons_of_mem f hg)) with h1 | ⟨s, h2, h3⟩
      · exact Or.inl (by simp [to_arrow_schema, hr, h1])
      · refine Or.inr ⟨af :: s, by simp [to_arrow_schema, hr, h2], ?_⟩
        simpa using h3

/-- C1 witness: the amended theorem applied to the one-field STRING
schema. -/
theorem C1_witness :
    (∀ f ∈ [strField], rangeOk f = true) ∧
      (to_arrow_schema [strField] = .ok none ∨
        ∃ s, to_arrow_schema [strField] = .ok (some s) ∧
          s.length ≤ [strField].length) :=
  ⟨by decide, C1_resolution_total_without_bad_range [strField] (by decide)⟩

/-- C2: an event type contained in the deny-list is rejected by _log even
when it is also contained in the allow-list: deny overrides allow, and no
background write task is created. -/
theorem C2_deny_overrides_allow :
    ∀ (a d : List String) (et : String) (now : Nat) (data : LogData),
      data.event_type = some et → et ∈ a → et ∈ d →
      log_sched ⟨true, some a, some d⟩ now data = none := by
  intro a d et now data hdt _ha hd
  have hne : d.isEmpty = false := by
    cases d with
    | nil => cases hd
    | cons x xs => rfl
  simp [log_sched, pyTruthyList, optMemList, hdt, hne, hd]

/-- C2 witness: allow-list TOOL_STARTING together with deny-list
TOOL_STARTING rejects a TOOL_STARTING event. -/
theorem C2_witness :
    toolStartingData.event_type = some "TOOL_STARTING" ∧
      "TOOL_STARTING" ∈ ["TOOL_STARTING"] ∧
      "TOOL_STARTING" ∈ ["TOOL_STARTING"] ∧
      log_sched ⟨true, some ["TOOL_STARTING"], some ["TOOL_STARTING"]⟩ 0
        toolStartingData = none :=
  ⟨rfl, by decide, by decide,
    C2_deny_overrides_allow ["TOOL_STARTING"] ["TOOL_STARTING"] "TOOL_STARTING"
      0 toolStartingData rfl (by decide) (by decide)⟩

/-- C3 counterexample: the resolved wire schema for the fixed 8-field
deployment schema marks the timestamp field (its head) nullable, refuting
the claim that timestamp and event_type are non-nullable.  Every
SchemaField in the plugin constructor is built with the default mode
NULLABLE and _bq_to_arrow_field sets nullable for every non-REPEATED
field. -/
theorem C3_counterexample_timestamp_nullable :
    to_arrow_schema plugin_schema = .ok (some plugin_resolved) ∧
      plugin_resolved.head? = some
        ⟨"timestamp", .timestamp "us" (some "UTC"), true, none⟩ ∧
      plugin_resolved.map ArrowField.nullable
        = [true, true, true, true, true, true, true, true] :=
  ⟨rfl, rfl, rfl⟩

/-- C3 (amended): the resolved wire schema for the fixed 8-field
deployment schema marks every field nullable, including timestamp and
event_type. -/
theorem C3_all_plugin_fields_nullable :
    to_arrow_schema plugin_schema = .ok (some plugin_resolved) ∧
      plugin_resolved.length = 8 ∧
      plugin_resolved.all ArrowField.nullable = true :=
  ⟨rfl, rfl, rfl⟩

/-- C4 counterexample: a top-level field that fails to resolve does not
force an absent result when an earlier field raises: with a bad Range
field first, to_arrow_schema propagates the exception instead of
returning absent. -/
theorem C4_counterexample_error_not_absent :
    bq_to_arrow_field fooField = .ok none ∧
      fooField ∈ [rangeNoneField, fooField] ∧
      to_arrow_schema [rangeNoneField, fooField]
        = .error "ValueError: Range element type cannot be None" :=
  ⟨rfl, List.mem_cons_of_mem _ (List.mem_cons_self _ _), rfl⟩

/-- C4 (amended): provided no field raises (every RANGE node carries a
present, mapped element kind), to_arrow_schema returns absent whenever
any single top-level field fails to resolve; in every case it never
returns a partial schema (a returned schema has exactly one field per
input field); and when the cached schema is absent, _perform_write
returns before encoding or transmitting. -/
theorem C4_all_or_nothing_and_no_write_when_absent :
    (∀ l : List SchemaField, (∀ f ∈ l, rangeOk f = true) →
        (∃ f ∈ l, bq_to_arrow_field f = .ok none) →
        to_arrow_schema l = .ok none) ∧
      (∀ (l : List SchemaField) (s : List ArrowField),
        to_arrow_schema l = .ok (some s) → s.length = l.length) ∧
      (∀ st : WriteState, st.arrow_schema = none →
        perform_write_transmits st = false) := by
  refine ⟨?_, to_arrow_schema_length, ?_⟩
  · intro l
    induction l with
    | nil =>
      rintro _ ⟨f, hf, _⟩
      cases hf
    | cons f fs ih =>
      intro h hex
      obtain ⟨r, hr⟩ := field_no_error f (h f (List.mem_cons_self f fs))
      cases r with
      | none => simp [to_arrow_schema, hr]
      | some af =>
        obtain ⟨g, hg, hgnone⟩ := hex
        rcases List.mem_cons.mp hg with rfl | hgtail
        · rw [hr] at hgnone
          simp at hgnone
        · have htail : to_arrow_schema fs = .ok none :=
            ih (fun g' hg' => h g' (List.mem_cons_of_mem f hg')) ⟨g, hgtail, hgnone⟩
          simp [to_arrow_schema, hr, htail]
  · intro st h
    simp [perform_write_transmits, h, schemaTruthy]

/-- C4 witness: the amended theorem applied to a one-field schema whose
only field fails to resolve. -/
theorem C4_witness : to_arrow_schema [fooField] = .ok none :=
  C4_all_or_nothing_and_no_write_when_absent.1 [fooField] (by decide)
    ⟨fooField, List.mem_cons_self fooField [], rfl⟩

/-- C5 counterexample: a struct whose first child raises (bad Range) and
whose second child resolves to absent.  The second child fails to
resolve, yet struct resolution does not return absent: it raises,
refuting the if-and-only-if as stated. -/
theorem C5_counterexample_struct_raises :
    structRaisingChild.fields = [rangeNoneField, fooField] ∧
      bq_to_arrow_field fooField = .ok none ∧
      bq_to_arrow_struct_data_type structRaisingChild
        = .error "ValueError: Range element type cannot be None" :=
  ⟨rfl, rfl, rfl⟩

/-- C5 (amended): for every Struct SchemaField none of whose child fields
raises on resolution, the struct resolves to absent if and only if at
least one child field resolves to absent. -/
theorem C5_struct_absent_iff_child_absent :
    ∀ f : SchemaField, (∀ g ∈ f.fields, ∃ r, bq_to_arrow_field g = .ok r) →
      (bq_to_arrow_struct_data_type f = .ok none ↔
        ∃ g ∈ f.fields, bq_to_arrow_field g = .ok none) := by
  intro f h
  obtain ⟨hiff, ⟨r, hr⟩⟩ := subfields_none_iff f.fields h
  cases r with
  | none =>
    have hres : bq_to_arrow_struct_data_type f = .ok none := by
      simp [bq_to_arrow_struct_data_type, hr]
    exact iff_of_true hres (hiff.mp hr)
  | some entries =>
    have hres : bq_to_arrow_struct_data_type f
        = .ok (some (.struct entries)) := by
      simp [bq_to_arrow_struct_data_type, hr]
    refine iff_of_false (by simp [hres]) ?_
    intro hcontra
    have : bq_to_arrow_subfields f.fields = .ok none := hiff.mpr hcontra
    rw [hr] at this
    simp at this

/-- C5 witness: the amended theorem applied to a struct with one
resolving child and one child that resolves to absent. -/
theorem C5_witness :
    (∀ g ∈ structDroppedChild.fields, ∃ r, bq_to_arrow_field g = .ok r) ∧
      (bq_to_arrow_struct_data_type structDroppedChild = .ok none ↔
        ∃ g ∈ structDroppedChild.fields, bq_to_arrow_field g = .ok none) := by
  have h : ∀ g ∈ structDroppedChild.fields, ∃ r, bq_to_arrow_field g = .ok r := by
    intro g hg
    simp only [structDroppedChild, SchemaField.fields] at hg
    rcases List.mem_cons.mp hg with rfl | hg2
    · exact ⟨some ⟨"s", .string, true, none⟩, rfl⟩
    · rcases List.mem_cons.mp hg2 with rfl | hg3
      · exact ⟨none, rfl⟩
      · cases hg3
  exact ⟨h, C5_struct_absent_iff_child_absent structDroppedChild h⟩

/-- C6 counterexample: with the default configuration (no allow-list), a
data dict with event_type absent still passes the filter of _log, so a
background write task is created, refuting the claim that such rows are
never published. -/
theorem C6_counterexample_absent_event_type_scheduled :
    emptyLogData.event_type = none ∧
      (log_sched defaultConfig 0 emptyLogData).isSome = true :=
  ⟨rfl, rfl⟩

/-- C6 (amended): a row whose event_type is absent is scheduled iff
logging is enabled and no non-empty allow-list is configured (a non-empty
allow-list rejects it, because None is not a member); and the scheduling
decision depends only on event_type, so rows missing any other optional
field are scheduled exactly like rows with the same event_type. -/
theorem C6_missing_event_type_scheduling :
    (∀ (cfg : BigQueryLoggerConfig) (now : Nat) (d : LogData),
        d.event_type = none →
        (log_sched cfg now d).isSome
          = (cfg.enabled && !pyTruthyList cfg.event_allowlist)) ∧
      (∀ (cfg : BigQueryLoggerConfig) (now : Nat) (d1 d2 : LogData),
        d1.event_type = d2.event_type →
        (log_sched cfg now d1).isSome = (log_sched cfg now d2).isSome) := by
  constructor
  · intro cfg now d h
    obtain ⟨en, al, dl⟩ := cfg
    cases en with
    | false => simp [log_sched]
    | true =>
      cases hal : pyTruthyList al <;>
        simp [log_sched, optMemList, h, hal]
  · intro cfg now d1 d2 h
    simp only [log_sched, h]
    split_ifs <;> simp

/-- C6 witness: the amended theorem applied to a configured allow-list
and an empty data dict: the row is rejected. -/
theorem C6_witness :
    emptyLogData.event_type = none ∧
      (log_sched ⟨true, some ["X"], none⟩ 0 emptyLogData).isSome
        = ((true : Bool) && !pyTruthyList (some ["X"])) :=
  ⟨rfl, C6_missing_event_type_scheduling.1 ⟨true, some ["X"], none⟩ 0
    emptyLogData rfl⟩

/-- C7 counterexample: when the write client is non-null but its
transport is absent (falsy), shutdown leaves the write-client handle in
place, so a subsequent _ensure_init takes the fast path and returns with
the stale handle instead of restarting initialization.  This refutes the
claim that both clients are null after every path through shutdown. -/
theorem C7_counterexample_stale_handle :
    (shutdown_clients (some false) true false false).1 = some false ∧
      ensure_init_fast_path (shutdown_clients (some false) true false false).1
        = true :=
  ⟨rfl, rfl⟩

/-- C7 (amended): after shutdown the control-plane client is always null,
and the write client is null on every path where it was already null or
had a truthy transport, including when closing raised; only on the path
where the write client exists with an absent transport is the handle left
in place, and there a subsequent _ensure_init returns immediately with
the stale handle. -/
theorem C7_shutdown_nulls_clients_when_transport_present :
    ∀ (wc : Option Bool) (bq wf bf : Bool),
      (shutdown_clients wc bq wf bf).2 = false ∧
      (wc = none → (shutdown_clients wc bq wf bf).1 = none) ∧
      (wc = some true → (shutdown_clients wc bq wf bf).1 = none) ∧
      (wc = some false → (shutdown_clients wc bq wf bf).1 = some false ∧
        ensure_init_fast_path (shutdown_clients wc bq wf bf).1 = true) := by
  intro wc bq wf bf
  refine ⟨?_, ?_, ?_, ?_⟩
  · cases bq <;> rfl
  · rintro rfl
    cases bq <;> rfl
  · rintro rfl
    cases bq <;> rfl
  · rintro rfl
    cases bq <;> exact ⟨rfl, rfl⟩

/-- C7 witness: the amended theorem applied to a write client with a
truthy transport whose close fails: the handle is nulled anyway. -/
theorem C7_witness :
    (some true : Option Bool) = some true ∧
      (shutdown_clients (some true) true true true).1 = none :=
  ⟨rfl, (C7_shutdown_nulls_clients_when_transport_present
    (some true) true true true).2.2.1 rfl⟩

/-- The slice of a string to n characters has length at most n. -/
theorem pySlice_length_le (s : String) (n : Nat) : (pySlice s n).length ≤ n := by
  have h : (pySlice s n).length = (s.data.take n).length := rfl
  rw [h, List.length_take]
  omega

/-- C9: the default formatters truncate with a literal ellipsis exactly
when the input exceeds the cap.  For a non-empty text part, _format_content
with its default cap of 500 renders the text unchanged without suffix when
its length is at most 500, and otherwise keeps the first 500 characters
(at most 500) followed by the ellipsis; _format_args with its default cap
of 1000 behaves the same on the serialized argument string. -/
theorem C9_default_truncation :
    ∀ t s : String, t ≠ "" →
      (500 < t.length →
        format_content 500 (some [textPart t])
            = "text: \x27" ++ pySlice t 500 ++ "...\x27 "
          ∧ (pySlice t 500).length ≤ 500) ∧
      (t.length ≤ 500 →
        format_content 500 (some [textPart t]) = "text: \x27" ++ t ++ "\x27") ∧
      (1000 < s.length →
        format_args 1000 false s = pySlice s 1000 ++ "..."
          ∧ (pySlice s 1000).length ≤ 1000) ∧
      (s.length ≤ 1000 → format_args 1000 false s = s) := by
  intro t s ht
  have hb : t.isEmpty = false := by
    rw [Bool.eq_false_iff]
    intro hc
    exact ht ((String.isEmpty_iff t).mp hc)
  have hfc : format_content 500 (some [textPart t]) = formatPart 500 (textPart t) := rfl
  have hfp : formatPart 500 (textPart t)
      = if 500 < t.length then "text: \x27" ++ pySlice t 500 ++ "...\x27 "
        else "text: \x27" ++ t ++ "\x27" := by
    simp [formatPart, textPart, pyTruthyStr, hb]
  refine ⟨?_, ?_, ?_, ?_⟩
  · intro h
    exact ⟨by rw [hfc, hfp, if_pos h], pySlice_length_le t 500⟩
  · intro h
    rw [hfc, hfp, if_neg (by omega)]
  · intro h
    refine ⟨?_, pySlice_length_le s 1000⟩
    simp only [format_args, if_neg (by simp : ¬(false = true))]
    rw [if_pos h]
  · intro h
    simp only [format_args]
    rw [if_neg (by simp : ¬(false = true)), if_neg (by omega)]

/-- C9 witness: the truncation theorem applied to the concrete inputs
"hi" and "xy", both under the caps. -/
theorem C9_witness :
    ("hi" : String) ≠ "" ∧
      ((500 < ("hi" : String).length →
        format_content 500 (some [textPart "hi"])
            = "text: \x27" ++ pySlice "hi" 500 ++ "...\x27 "
          ∧ (pySlice "hi" 500).length ≤ 500) ∧
      (("hi" : String).length ≤ 500 →
        format_content 500 (some [textPart "hi"])
          = "text: \x27" ++ "hi" ++ "\x27") ∧
      (1000 < ("xy" : String).length →
        format_args 1000 false "xy" = pySlice "xy" 1000 ++ "..."
          ∧ (pySlice "xy" 1000).length ≤ 1000) ∧
      (("xy" : String).length ≤ 1000 → format_args 1000 false "xy" = "xy")) :=
  ⟨by decide, C9_default_truncation "hi" "xy" (by decide)⟩

/-- Helper: a non-nil list has isEmpty false. -/
theorem isEmpty_false_of_ne_nil {α : Type} (l : List α) (h : l ≠ []) :
    l.isEmpty = false := by
  cases l with
  | nil => exact absurd rfl h
  | cons a as => rfl

/-- C10: the derived event type is exactly one of the six values of the
taxonomy, decided by the fixed precedence of _get_event_type: author
user first, then function calls, then function responses, then content
parts, then the error message, then SYSTEM.  In particular an event
carrying both content parts and an error message (fifth conjunct, which
does not constrain the error message) is classified MODEL_RESPONSE, not
ERROR. -/
theorem C10_event_type_taxonomy_precedence (e : EventShape) :
    (get_event_type e = "USER_INPUT" ∨ get_event_type e = "TOOL_CALL"
        ∨ get_event_type e = "TOOL_RESULT" ∨ get_event_type e = "MODEL_RESPONSE"
        ∨ get_event_type e = "ERROR" ∨ get_event_type e = "SYSTEM") ∧
      (e.author = "user" → get_event_type e = "USER_INPUT") ∧
      (e.author ≠ "user" → e.function_calls ≠ [] →
        get_event_type e = "TOOL_CALL") ∧
      (e.author ≠ "user" → e.function_calls = [] →
        e.function_responses ≠ [] → get_event_type e = "TOOL_RESULT") ∧
      (e.author ≠ "user" → e.function_calls = [] →
        e.function_responses = [] → pyTruthyParts e.content_parts = true →
        get_event_type e = "MODEL_RESPONSE") ∧
      (e.author ≠ "user" → e.function_calls = [] →
        e.function_responses = [] → pyTruthyParts e.content_parts = false →
        pyTruthyStr e.error_message = true → get_event_type e = "ERROR") ∧
      (e.author ≠ "user" → e.function_calls = [] →
        e.function_responses = [] → pyTruthyParts e.content_parts = false →
        pyTruthyStr e.error_message = false → get_event_type e = "SYSTEM") := by
  refine ⟨?_, ?_, ?_, ?_, ?_, ?_, ?_⟩
  · unfold get_event_type
    split_ifs
    · exact Or.inl rfl
    · exact Or.inr (Or.inl rfl)
    · exact Or.inr (Or.inr (Or.inl rfl))
    · exact Or.inr (Or.inr (Or.inr (Or.inl rfl)))
    · exact Or.inr (Or.inr (Or.inr (Or.inr (Or.inl rfl))))
    · exact Or.inr (Or.inr (Or.inr (Or.inr (Or.inr rfl))))
  · intro h
    simp [get_event_type, h]
  · intro h1 h2
    simp [get_event_type, h1, isEmpty_false_of_ne_nil _ h2]
  · intro h1 h2 h3
    simp [get_event_type, h1, h2, isEmpty_false_of_ne_nil _ h3]
  · intro h1 h2 h3 h4
    simp [get_event_type, h1, h2, h3, h4]
  · intro h1 h2 h3 h4 h5
    simp [get_event_type, h1, h2, h3, h4, h5]
  · intro h1 h2 h3 h4 h5
    simp [get_event_type, h1, h2, h3, h4, h5]

/-- C10 witness: the precedence theorem applied to an event carrying both
content parts and an error message: it is classified MODEL_RESPONSE. -/
theorem C10_witness :
    eventBothContentAndError.content_parts = some [textPart "x"] ∧
      eventBothContentAndError.error_message = some "boom" ∧
      get_event_type eventBothContentAndError = "MODEL_RESPONSE" :=
  ⟨rfl, rfl,
    (C10_event_type_taxonomy_precedence eventBothContentAndError).2.2.2.2.1
      (by decide) rfl rfl rfl⟩
